import Mathlib

/-!
Shallow embedding of the two fixture-builder scripts of the repository:

* `scripts/create-test-pptx.py`
* `tests/fixtures/create_simple_pptx.py`

Both scripts build a fixed two-slide presentation document through the
vendor authoring library (python-pptx) and save it to a fixed relative
path.  The embedding models

* the vendor length units (`pptx.util.Inches`, `pptx.util.Pt`, both
  converting to integer EMU),
* the document objects the scripts construct (presentation, slide,
  placeholder/text-box/auto shapes, paragraphs, fill and line formats),
  restricted to the attributes the scripts actually set, and
* the process-level behaviour of running each script: which lines are
  printed to stdout (together with the stream encoding in effect at the
  time of the print), what lands on stderr, the process exit status, and
  which file is saved with which in-memory document.

Vendor calls are total on the fixed literal inputs of the scripts; the
possibility that the vendor library or the file system raises an
exception somewhere during construction or save is modelled by the
oracle `World.buildError` (the first exception raised, if any), and a
missing python-pptx installation by `World.pptxInstalled = false`.
-/

namespace PPTistBackend

/-! ## Length units (`pptx.util`) -/

/-- `pptx.util.Inches(x)` converts inches to integer EMU via
`int(x * 914400)`; every value the scripts pass is a nonnegative exact
multiple, so Python truncation and floor agree. -/
def Inches (x : ℚ) : Int := Int.floor (x * 914400)

/-- `pptx.util.Pt(x)` converts typographic points to integer EMU via
`int(x * 12700)`. -/
def Pt (x : ℚ) : Int := Int.floor (x * 12700)

/-! ## Document data model (the vendor objects, restricted to the
attributes the scripts set) -/

/-- An RGB colour, as `pptx.dml.color.RGBColor(r, g, b)`. -/
structure RGBColor where
  r : Nat
  g : Nat
  b : Nat
deriving DecidableEq

/-- A paragraph of a text frame: its text, the run font size in EMU (if
set), the run bold flag (if set), and its indent level (default 0). -/
structure Paragraph where
  text : String
  fontSizeEmu : Option Int
  fontBold : Option Bool
  level : Nat
deriving DecidableEq

/-- A shape fill: untouched (inherited from theme/layout), or made solid
by `fill.solid()` with an optional explicit `fore_color.rgb`. -/
inductive FillFormat
  | inherited
  | solid (rgb : Option RGBColor)
deriving DecidableEq

/-- A shape outline: explicit `line.color.rgb` and `line.width` when the
script sets them. -/
structure LineFormat where
  colorRgb : Option RGBColor
  widthEmu : Option Int
deriving DecidableEq

/-- The kinds of shapes the scripts create: layout placeholders (cloned
by `add_slide`), text boxes (`add_textbox`) and auto shapes
(`add_shape`). -/
inductive ShapeKind
  | placeholder
  | textBox
  | autoShape
deriving DecidableEq

/-- A shape on a slide, carrying exactly the attributes the scripts
read or write. -/
structure Shape where
  kind : ShapeKind
  phIdx : Option Nat
  shapeTypeId : Option Nat
  leftEmu : Option Int
  topEmu : Option Int
  widthEmu : Option Int
  heightEmu : Option Int
  wordWrap : Option Bool
  paragraphs : List Paragraph
  fill : FillFormat
  line : LineFormat
deriving DecidableEq

/-- A slide: the index of the layout it was added from, and its shapes
in z-order (cloned placeholders first, then shapes in insertion
order). -/
structure Slide where
  layoutIdx : Nat
  shapes : List Shape
deriving DecidableEq

/-- The in-memory presentation document. -/
structure Presentation where
  slideWidthEmu : Int
  slideHeightEmu : Int
  slides : List Slide
deriving DecidableEq

/-! ## Vendor API helpers the scripts call -/

/-- The single empty paragraph a fresh text frame starts with. -/
def emptyParagraph : Paragraph :=
  { text := "", fontSizeEmu := none, fontBold := none, level := 0 }

/-- A placeholder cloned from the slide layout by `slides.add_slide`:
identified by its placeholder index, with empty text. -/
def placeholderShape (idx : Nat) : Shape :=
  { kind := ShapeKind.placeholder, phIdx := some idx, shapeTypeId := none,
    leftEmu := none, topEmu := none, widthEmu := none, heightEmu := none,
    wordWrap := none, paragraphs := [emptyParagraph],
    fill := FillFormat.inherited,
    line := { colorRgb := none, widthEmu := none } }

/-- The `.text = s` setter on a shape: the text frame is replaced by a
single paragraph holding one run with text `s`. -/
def Shape.setText (sh : Shape) (s : String) : Shape :=
  { sh with paragraphs := [{ emptyParagraph with text := s }] }

/-- `shapes.add_textbox(left, top, width, height)`: a new text box with
one empty paragraph and no explicit word-wrap/fill/line settings. -/
def addTextboxShape (l t w h : Int) : Shape :=
  { kind := ShapeKind.textBox, phIdx := none, shapeTypeId := none,
    leftEmu := some l, topEmu := some t, widthEmu := some w,
    heightEmu := some h, wordWrap := none, paragraphs := [emptyParagraph],
    fill := FillFormat.inherited,
    line := { colorRgb := none, widthEmu := none } }

/-- `shapes.add_shape(t, left, top, width, height)`: a new auto shape of
numeric shape type `t` with one empty paragraph. -/
def addAutoShape (t : Nat) (l tp w h : Int) : Shape :=
  { kind := ShapeKind.autoShape, phIdx := none, shapeTypeId := some t,
    leftEmu := some l, topEmu := some tp, widthEmu := some w,
    heightEmu := some h, wordWrap := none, paragraphs := [emptyParagraph],
    fill := FillFormat.inherited,
    line := { colorRgb := none, widthEmu := none } }

/-- `MSO_SHAPE.RECTANGLE` from `pptx.enum.shapes` (member value 1). -/
def msoShapeRectangle : Nat := 1

/-- Placeholder indices cloned onto a new slide for each slide layout of
the vendor default template used by `Presentation()`: layout 0 is the
title slide (title `idx 0`, subtitle `idx 1`), layout 1 is title and
content (title `idx 0`, body `idx 1`), layout 5 is title only
(title `idx 0`). -/
def layoutPlaceholderIdxs : Nat → List Nat
  | 0 => [0, 1]
  | 1 => [0, 1]
  | 5 => [0]
  | _ => [0]

/-- `prs.slides.add_slide(prs.slide_layouts[i])`: a slide whose shapes
are the placeholders cloned from layout `i`. -/
def newSlide (layoutIdx : Nat) : Slide :=
  { layoutIdx := layoutIdx,
    shapes := (layoutPlaceholderIdxs layoutIdx).map placeholderShape }

/-! ## The document built by `scripts/create-test-pptx.py`
(function `create_test_pptx`, lines 16-89) -/

/-- The in-memory document `create_test_pptx` constructs (lines 20-79 of
`scripts/create-test-pptx.py`). -/
def createTestPptxDoc : Presentation :=
  -- lines 25-30: slide 1 from layout 0; title and subtitle text
  let slide1 : Slide :=
    { newSlide 0 with
      shapes := [Shape.setText (placeholderShape 0) "PPTX to JSON Conversion Test",
                 Shape.setText (placeholderShape 1) "End-to-End Integration Test"] }
  -- lines 36-37: title of slide 2 (layout 5)
  let title2 : Shape := Shape.setText (placeholderShape 0) "Test Elements"
  -- lines 40-50: text box at (1in, 2in) size 3in x 1in, word_wrap on,
  -- paragraph 0 text and 18pt font
  let textbox1 : Shape :=
    { addTextboxShape (Inches 1) (Inches 2) (Inches 3) (Inches 1) with
      wordWrap := some true,
      paragraphs := [{ text := "This is a test text box",
                       fontSizeEmu := some (Pt 18), fontBold := none, level := 0 }] }
  -- lines 52-67: rectangle at (5in, 2in) size 2in x 1.5in, solid fill
  -- RGB(0x70, 0xC0, 0x00), line colour RGB(0, 0, 0), line width 1pt
  let rect : Shape :=
    { addAutoShape msoShapeRectangle (Inches 5) (Inches 2) (Inches 2) (Inches 1.5) with
      fill := FillFormat.solid (some { r := 0x70, g := 0xC0, b := 0x00 }),
      line := { colorRgb := some { r := 0, g := 0, b := 0 }, widthEmu := some (Pt 1) } }
  -- lines 69-79: second text box at (1in, 4in) size 6in x 1in,
  -- paragraph 0 text, 14pt bold font
  let textbox2 : Shape :=
    { addTextboxShape (Inches 1) (Inches 4) (Inches 6) (Inches 1) with
      paragraphs := [{ text := "Element 2: Another text box",
                       fontSizeEmu := some (Pt 14), fontBold := some true, level := 0 }] }
  -- line 33: slide 2 from layout 5 (title only), shapes in insertion order
  let slide2 : Slide :=
    { newSlide 5 with shapes := [title2, textbox1, rect, textbox2] }
  -- lines 20-22: presentation with 10in x 7.5in page size
  { slideWidthEmu := Inches 10, slideHeightEmu := Inches 7.5,
    slides := [slide1, slide2] }

/-! ## The document built by `tests/fixtures/create_simple_pptx.py`
(module body, lines 9-57) -/

/-- The in-memory document the module body of
`tests/fixtures/create_simple_pptx.py` constructs (lines 9-57). -/
def createSimplePptxDoc : Presentation :=
  -- lines 14-23: slide 1 from layout 0; title and subtitle text
  let slide1 : Slide :=
    { newSlide 0 with
      shapes := [Shape.setText (placeholderShape 0) "测试演示文稿",
                 Shape.setText (placeholderShape 1) "这是一个简单的测试 PPTX"] }
  -- lines 30-32: title of slide 2; the body placeholder (idx 1) cloned
  -- from layout 1 is never touched
  let title2 : Shape := Shape.setText (placeholderShape 0) "主要内容"
  -- lines 35-56: text box at (1in, 2in) size 8in x 4in, word_wrap on,
  -- three paragraphs all at 18pt, the second at indent level 1
  let textbox : Shape :=
    { addTextboxShape (Inches 1) (Inches 2) (Inches 8) (Inches 4) with
      wordWrap := some true,
      paragraphs := [{ text := "这是第一行文本",
                       fontSizeEmu := some (Pt 18), fontBold := none, level := 0 },
                     { text := "这是第二行文本",
                       fontSizeEmu := some (Pt 18), fontBold := none, level := 1 },
                     { text := "这是第三行文本",
                       fontSizeEmu := some (Pt 18), fontBold := none, level := 0 }] }
  -- lines 26-27: slide 2 from layout 1 (title and content)
  let slide2 : Slide :=
    { newSlide 1 with shapes := [title2, placeholderShape 1, textbox] }
  -- lines 9-11: presentation with 10in x 7.5in page size
  { slideWidthEmu := Inches 10, slideHeightEmu := Inches 7.5,
    slides := [slide1, slide2] }

/-! ## Process model -/

/-- A Python exception, as far as the scripts distinguish them:
`ImportError` (matched by the first `except` clause of
`scripts/create-test-pptx.py`) versus any other `Exception`. -/
inductive PyError
  | importError (msg : String)
  | otherError (msg : String)
deriving DecidableEq

/-- The message carried by an exception. -/
def PyError.message : PyError → String
  | PyError.importError m => m
  | PyError.otherError m => m

/-- The environment a script invocation runs in.  `pptxInstalled` is
whether the vendor library can be imported; `buildError` is the first
exception (if any) the vendor library or the file system raises while
shapes are built, properties are set, or the file is saved;
`defaultEncoding` is the platform default text encoding of stdout;
`argv`/`envVars` are the command line and process environment (read by
neither script). -/
structure World where
  pptxInstalled : Bool
  buildError : Option PyError
  defaultEncoding : String
  argv : List String
  envVars : List (String × String)
deriving DecidableEq

/-- What a call to the Python function `create_test_pptx` does: the
lines it prints (in order), the file it saves (path and document), the
exception it raises, and the value it returns. -/
structure CallResult where
  printed : List String
  saved : Option (String × Presentation)
  raised : Option PyError
  returned : Option String
deriving DecidableEq

/-- The observable outcome of running a script: stdout lines, each
tagged with the encoding of the stdout stream at the time of the print;
stderr lines; the process exit status; and the saved file, if any. -/
structure ProcResult where
  stdoutLines : List (String × String)
  stderrLines : List String
  exitCode : Nat
  saved : Option (String × Presentation)
deriving DecidableEq

/-- The stand-in for the traceback the interpreter (or
`traceback.print_exc()`) writes to stderr for an exception. -/
def tracebackText (e : PyError) : String :=
  let m := e.message
  s!"Traceback (most recent call last): {m}"

/-- The Python function `create_test_pptx`
(`scripts/create-test-pptx.py` lines 16-89), with `err` the oracle for
an exception raised during construction or save.  On success it builds
`createTestPptxDoc`, saves it at `tests/fixtures/simple.pptx`, prints
the three status lines of lines 85-87, and returns the output path. -/
def create_test_pptx (err : Option PyError) : CallResult :=
  match err with
  | some e => { printed := [], saved := none, raised := some e, returned := none }
  | none =>
      let prs := createTestPptxDoc
      let output_path := "tests/fixtures/simple.pptx"
      let n := prs.slides.length
      { printed := [s!"[OK] Successfully created test PPTX file: {output_path}",
                    s!"   Slide count: {n}",
                    s!"   File size: ~{n} slides with basic elements"],
        saved := some (output_path, prs),
        raised := none,
        returned := some output_path }

/-- Running `python scripts/create-test-pptx.py`.  Line 6 imports the
vendor library at module level, outside any `try` block: when it is not
installed the `ImportError` is uncaught, the interpreter prints a
traceback to stderr and exits with status 1.  Otherwise line 14 rewraps
stdout with encoding `utf-8` before anything is printed, and the
`__main__` block (lines 91-100) calls `create_test_pptx` inside
`try/except ImportError/except Exception`, so the process always exits
with status 0 from there on. -/
def runCreateTestPptx (w : World) : ProcResult :=
  if w.pptxInstalled = false then
    { stdoutLines := [],
      stderrLines := [tracebackText (PyError.importError "No module named pptx")],
      exitCode := 1, saved := none }
  else
    let enc := "utf-8"
    let call := create_test_pptx w.buildError
    match call.raised with
    | none =>
        { stdoutLines := call.printed.map (fun s => (enc, s)),
          stderrLines := [], exitCode := 0, saved := call.saved }
    | some (PyError.importError _) =>
        -- lines 94-96
        { stdoutLines := [(enc, "[ERROR] Need to install python-pptx"),
                          (enc, "   Run: pip install python-pptx")],
          stderrLines := [], exitCode := 0, saved := call.saved }
    | some (PyError.otherError m) =>
        -- lines 97-100: message line to stdout, traceback.print_exc()
        -- to stderr
        { stdoutLines := [(enc, s!"[ERROR] Failed to create file: {m}")],
          stderrLines := [tracebackText (PyError.otherError m)],
          exitCode := 0, saved := call.saved }

/-- Running `python tests/fixtures/create_simple_pptx.py`.  The module
body (lines 5-60) is straight-line code with no `try` block anywhere:
a missing vendor library (line 5) or any exception raised while
building or saving propagates out of the module, the interpreter prints
a traceback to stderr and the process exits with status 1.  On success
the document is saved as `simple.pptx` and line 60 prints one line to
stdout with the platform default encoding (stdout is never rewrapped
here). -/
def runCreateSimplePptx (w : World) : ProcResult :=
  if w.pptxInstalled = false then
    { stdoutLines := [],
      stderrLines := [tracebackText (PyError.importError "No module named pptx")],
      exitCode := 1, saved := none }
  else
    match w.buildError with
    | some e =>
        { stdoutLines := [], stderrLines := [tracebackText e],
          exitCode := 1, saved := none }
    | none =>
        { stdoutLines := [(w.defaultEncoding, "simple.pptx created successfully")],
          stderrLines := [], exitCode := 0,
          saved := some ("simple.pptx", createSimplePptxDoc) }

/-! ## Accessors -/

/-- `len(prs.slides)`. -/
def Presentation.slideCount (p : Presentation) : Nat := p.slides.length

/-- `slide.shapes.title`: the placeholder with index 0, if present. -/
def Slide.titleShape (s : Slide) : Option Shape :=
  s.shapes.find? (fun sh => sh.phIdx == some 0)

/-- `shape.text_frame.text`: the paragraph texts joined by newlines. -/
def Shape.shapeText (sh : Shape) : String :=
  String.intercalate "\n" (sh.paragraphs.map Paragraph.text)

/-- The title text of a slide, if it has a title placeholder. -/
def Slide.titleText (s : Slide) : Option String :=
  (s.titleShape).map Shape.shapeText

/-- The title text of the first slide of a document. -/
def Presentation.firstSlideTitle (p : Presentation) : Option String :=
  (p.slides.get? 0).bind Slide.titleText

/-- The text-box shapes of a slide, in z-order. -/
def Slide.textBoxShapes (s : Slide) : List Shape :=
  s.shapes.filter (fun sh =>
    match sh.kind with
    | ShapeKind.textBox => true
    | _ => false)

/-- A world where the vendor library is installed and nothing fails:
the canonical successful invocation. -/
def okWorld : World :=
  { pptxInstalled := true, buildError := none, defaultEncoding := "utf-8",
    argv := [], envVars := [] }

/-- A world where the vendor library is not installed. -/
def noPptxWorld : World :=
  { pptxInstalled := false, buildError := none, defaultEncoding := "gbk",
    argv := [], envVars := [] }

/-- A world where the vendor library is installed but saving fails with
a generic (non-import) error. -/
def diskFullWorld : World :=
  { pptxInstalled := true,
    buildError := some (PyError.otherError "No space left on device"),
    defaultEncoding := "utf-8", argv := [], envVars := [] }

/-! ## Helper lemmas -/

/-- The save of `scripts/create-test-pptx.py` either does not happen or
is exactly the fixed document at the fixed path. -/
lemma runCreateTestPptx_saved (w : World) :
    (runCreateTestPptx w).saved = none ∨
    (runCreateTestPptx w).saved =
      some ("tests/fixtures/simple.pptx", createTestPptxDoc) := by
  rcases w with ⟨i, e, d, a, v⟩
  cases i
  · exact Or.inl rfl
  · rcases e with _ | pe
    · exact Or.inr rfl
    · cases pe <;> exact Or.inl rfl

/-- The save of `tests/fixtures/create_simple_pptx.py` either does not
happen or is exactly the fixed document at the fixed path. -/
lemma runCreateSimplePptx_saved (w : World) :
    (runCreateSimplePptx w).saved = none ∨
    (runCreateSimplePptx w).saved = some ("simple.pptx", createSimplePptxDoc) := by
  rcases w with ⟨i, e, d, a, v⟩
  cases i
  · exact Or.inl rfl
  · rcases e with _ | pe
    · exact Or.inr rfl
    · exact Or.inl rfl

/-! ## Claims -/

/-- C1: the claim says that with python-pptx absent, both builder
scripts print the missing-dependency message and exit with status 0.
The code does the opposite: both scripts import the vendor library at
module level, outside any `try` block (`scripts/create-test-pptx.py`
line 6, `tests/fixtures/create_simple_pptx.py` line 5), so the
`ImportError` is uncaught, nothing is printed to stdout, and the
process exits with status 1.  The `except ImportError` handler of
`scripts/create-test-pptx.py` (lines 94-96) documents the intended
behaviour but can never fire for a missing installation. -/
theorem missing_dependency_crashes_both_scripts :
    (runCreateTestPptx noPptxWorld).exitCode = 1 ∧
    (runCreateTestPptx noPptxWorld).stdoutLines = [] ∧
    (runCreateSimplePptx noPptxWorld).exitCode = 1 ∧
    (runCreateSimplePptx noPptxWorld).stdoutLines = [] :=
  ⟨rfl, rfl, rfl, rfl⟩

/-- C2 counterexample: the claim says each builder script catches every
non-import error and still exits with status 0, but
`tests/fixtures/create_simple_pptx.py` has no `try` block at all: a
generic error during save makes it exit with status 1 and print nothing
to stdout. -/
theorem simple_script_error_exits_nonzero :
    (runCreateSimplePptx diskFullWorld).exitCode = 1 ∧
    (runCreateSimplePptx diskFullWorld).stdoutLines = [] :=
  ⟨rfl, rfl⟩

/-- C2 amended: only `scripts/create-test-pptx.py` catches a generic
(non-import) error raised while building or saving, printing the
failure message to stdout and a diagnostic trace to stderr and exiting
with status 0; `tests/fixtures/create_simple_pptx.py` propagates the
error and exits with status 1 printing nothing to stdout. -/
theorem general_error_handling_split (w : World) (m : String)
    (hi : w.pptxInstalled = true)
    (he : w.buildError = some (PyError.otherError m)) :
    (runCreateTestPptx w).exitCode = 0 ∧
    (runCreateTestPptx w).stdoutLines =
      [("utf-8", s!"[ERROR] Failed to create file: {m}")] ∧
    (runCreateTestPptx w).stderrLines =
      [tracebackText (PyError.otherError m)] ∧
    (runCreateSimplePptx w).exitCode = 1 ∧
    (runCreateSimplePptx w).stdoutLines = [] := by
  rcases w with ⟨i, e, d, a, v⟩
  cases hi
  cases he
  exact ⟨rfl, rfl, rfl, rfl, rfl⟩

/-- C2 amended, witness at a concrete world. -/
theorem general_error_handling_split_witness :
    (runCreateTestPptx diskFullWorld).exitCode = 0 ∧
    (runCreateTestPptx diskFullWorld).stdoutLines =
      [("utf-8", "[ERROR] Failed to create file: No space left on device")] ∧
    (runCreateTestPptx diskFullWorld).stderrLines =
      [tracebackText (PyError.otherError "No space left on device")] ∧
    (runCreateSimplePptx diskFullWorld).exitCode = 1 ∧
    (runCreateSimplePptx diskFullWorld).stdoutLines = [] :=
  general_error_handling_split diskFullWorld "No space left on device" rfl rfl

/-- C3 counterexample: the claim says each builder script's success
output names the output path and the slide count, but the entire
stdout of a successful run of `tests/fixtures/create_simple_pptx.py`
is the single line `simple.pptx created successfully` (line 60), which
contains no digit and hence cannot name the slide count. -/
theorem simple_success_line_has_no_count :
    (runCreateSimplePptx okWorld).stdoutLines.map Prod.snd =
      ["simple.pptx created successfully"] ∧
    ("simple.pptx created successfully".toList.filter Char.isDigit) = [] :=
  ⟨rfl, by decide⟩

/-- C3 amended: on success `scripts/create-test-pptx.py` prints a
success line naming the output path and a line with the slide count
(lines 85-87); `tests/fixtures/create_simple_pptx.py` prints a single
success line naming only the output path, without the slide count. -/
theorem success_status_lines (w : World)
    (hi : w.pptxInstalled = true) (he : w.buildError = none) :
    (runCreateTestPptx w).stdoutLines =
      [("utf-8", "[OK] Successfully created test PPTX file: tests/fixtures/simple.pptx"),
       ("utf-8", "   Slide count: 2"),
       ("utf-8", "   File size: ~2 slides with basic elements")] ∧
    (runCreateSimplePptx w).stdoutLines =
      [(w.defaultEncoding, "simple.pptx created successfully")] := by
  rcases w with ⟨i, e, d, a, v⟩
  cases hi
  cases he
  exact ⟨rfl, rfl⟩

/-- C3 amended, witness at a concrete world. -/
theorem success_status_lines_witness :
    (runCreateTestPptx okWorld).stdoutLines =
      [("utf-8", "[OK] Successfully created test PPTX file: tests/fixtures/simple.pptx"),
       ("utf-8", "   Slide count: 2"),
       ("utf-8", "   File size: ~2 slides with basic elements")] ∧
    (runCreateSimplePptx okWorld).stdoutLines =
      [("utf-8", "simple.pptx created successfully")] :=
  success_status_lines okWorld rfl rfl

/-- C4: every document a successful run of either builder saves
contains exactly 2 slides (reopening the saved file is the vendor
round trip, modelled as returning the saved in-memory document). -/
theorem saved_documents_have_two_slides (w : World) :
    (∀ p d, (runCreateTestPptx w).saved = some (p, d) → d.slideCount = 2) ∧
    (∀ p d, (runCreateSimplePptx w).saved = some (p, d) → d.slideCount = 2) := by
  constructor
  · intro p d h
    rcases runCreateTestPptx_saved w with h' | h' <;> rw [h'] at h
    · cases h
    · cases h
      rfl
  · intro p d h
    rcases runCreateSimplePptx_saved w with h' | h' <;> rw [h'] at h
    · cases h
    · cases h
      rfl

/-- C4, witness at a concrete successful world. -/
theorem saved_documents_have_two_slides_witness :
    createTestPptxDoc.slideCount = 2 ∧ createSimplePptxDoc.slideCount = 2 :=
  ⟨(saved_documents_have_two_slides okWorld).1 "tests/fixtures/simple.pptx"
      createTestPptxDoc rfl,
   (saved_documents_have_two_slides okWorld).2 "simple.pptx"
      createSimplePptxDoc rfl⟩

/-- C5: on success `scripts/create-test-pptx.py` saves its document at
`tests/fixtures/simple.pptx` and the function `create_test_pptx`
returns that path, while `tests/fixtures/create_simple_pptx.py` saves
its document at `simple.pptx`. -/
theorem saved_at_fixed_paths (w : World)
    (hi : w.pptxInstalled = true) (he : w.buildError = none) :
    (runCreateTestPptx w).saved =
      some ("tests/fixtures/simple.pptx", createTestPptxDoc) ∧
    (create_test_pptx w.buildError).returned = some "tests/fixtures/simple.pptx" ∧
    (runCreateSimplePptx w).saved = some ("simple.pptx", createSimplePptxDoc) := by
  rcases w with ⟨i, e, d, a, v⟩
  cases hi
  cases he
  exact ⟨rfl, rfl, rfl⟩

/-- C5, witness at a concrete successful world. -/
theorem saved_at_fixed_paths_witness :
    (runCreateTestPptx okWorld).saved =
      some ("tests/fixtures/simple.pptx", createTestPptxDoc) ∧
    (create_test_pptx okWorld.buildError).returned =
      some "tests/fixtures/simple.pptx" ∧
    (runCreateSimplePptx okWorld).saved =
      some ("simple.pptx", createSimplePptxDoc) :=
  saved_at_fixed_paths okWorld rfl rfl

/-- C6: the first slide's title text of every document a successful run
saves equals the literal set at construction:
`"PPTX to JSON Conversion Test"` for `scripts/create-test-pptx.py`
(line 29) and `"测试演示文稿"` for
`tests/fixtures/create_simple_pptx.py` (line 19). -/
theorem first_slide_title_matches_literal (w : World) :
    (∀ p d, (runCreateTestPptx w).saved = some (p, d) →
      d.firstSlideTitle = some "PPTX to JSON Conversion Test") ∧
    (∀ p d, (runCreateSimplePptx w).saved = some (p, d) →
      d.firstSlideTitle = some "测试演示文稿") := by
  constructor
  · intro p d h
    rcases runCreateTestPptx_saved w with h' | h' <;> rw [h'] at h
    · cases h
    · cases h
      rfl
  · intro p d h
    rcases runCreateSimplePptx_saved w with h' | h' <;> rw [h'] at h
    · cases h
    · cases h
      rfl

/-- C6, witness at a concrete successful world. -/
theorem first_slide_title_matches_literal_witness :
    createTestPptxDoc.firstSlideTitle = some "PPTX to JSON Conversion Test" ∧
    createSimplePptxDoc.firstSlideTitle = some "测试演示文稿" :=
  ⟨(first_slide_title_matches_literal okWorld).1 "tests/fixtures/simple.pptx"
      createTestPptxDoc rfl,
   (first_slide_title_matches_literal okWorld).2 "simple.pptx"
      createSimplePptxDoc rfl⟩

/-- C7: the second slide of the document of
`scripts/create-test-pptx.py` carries a rectangle auto shape with solid
fill RGB(0x70, 0xC0, 0x00), line colour RGB(0, 0, 0), line width 1pt,
at left 5in, top 2in, width 2in, height 1.5in (lines 52-67). -/
theorem second_slide_rectangle_properties :
    ∃ s2 sh, createTestPptxDoc.slides.get? 1 = some s2 ∧
      s2.shapes.get? 2 = some sh ∧
      sh.kind = ShapeKind.autoShape ∧
      sh.shapeTypeId = some msoShapeRectangle ∧
      sh.fill = FillFormat.solid (some { r := 0x70, g := 0xC0, b := 0x00 }) ∧
      sh.line.colorRgb = some { r := 0, g := 0, b := 0 } ∧
      sh.line.widthEmu = some (Pt 1) ∧
      sh.leftEmu = some (Inches 5) ∧
      sh.topEmu = some (Inches 2) ∧
      sh.widthEmu = some (Inches 2) ∧
      sh.heightEmu = some (Inches 1.5) :=
  ⟨_, _, rfl, rfl, rfl, rfl, rfl, rfl, rfl, rfl, rfl, rfl, rfl⟩

/-- C8: neither script reads its command line or environment (so the
run result is invariant under changing them), and any two successful
runs of the same script save the same path and the same in-memory
document. -/
theorem builders_deterministic_no_inputs (w w1 w2 : World)
    (a : List String) (v : List (String × String)) :
    runCreateTestPptx { w with argv := a, envVars := v } = runCreateTestPptx w ∧
    runCreateSimplePptx { w with argv := a, envVars := v } = runCreateSimplePptx w ∧
    (∀ p1 d1 p2 d2, (runCreateTestPptx w1).saved = some (p1, d1) →
      (runCreateTestPptx w2).saved = some (p2, d2) → p1 = p2 ∧ d1 = d2) ∧
    (∀ p1 d1 p2 d2, (runCreateSimplePptx w1).saved = some (p1, d1) →
      (runCreateSimplePptx w2).saved = some (p2, d2) → p1 = p2 ∧ d1 = d2) := by
  refine ⟨?_, ?_, ?_, ?_⟩
  · cases w
    rfl
  · cases w
    rfl
  · intro p1 d1 p2 d2 h1 h2
    rcases runCreateTestPptx_saved w1 with h | h <;> rw [h] at h1
    · cases h1
    · rcases runCreateTestPptx_saved w2 with g | g <;> rw [g] at h2
      · cases h2
      · cases h1
        cases h2
        exact ⟨rfl, rfl⟩
  · intro p1 d1 p2 d2 h1 h2
    rcases runCreateSimplePptx_saved w1 with h | h <;> rw [h] at h1
    · cases h1
    · rcases runCreateSimplePptx_saved w2 with g | g <;> rw [g] at h2
      · cases h2
      · cases h1
        cases h2
        exact ⟨rfl, rfl⟩

/-- C8, witness at concrete worlds, arguments and environment. -/
theorem builders_deterministic_no_inputs_witness :
    runCreateTestPptx { okWorld with argv := ["--flag"], envVars := [("LANG", "C")] } =
      runCreateTestPptx okWorld ∧
    ("simple.pptx" = "simple.pptx" ∧ createSimplePptxDoc = createSimplePptxDoc) :=
  ⟨(builders_deterministic_no_inputs okWorld okWorld okWorld
      ["--flag"] [("LANG", "C")]).1,
   (builders_deterministic_no_inputs okWorld okWorld okWorld
      ["--flag"] [("LANG", "C")]).2.2.2 "simple.pptx" createSimplePptxDoc
      "simple.pptx" createSimplePptxDoc rfl rfl⟩

/-- C9: the text box on the second slide of the document of
`tests/fixtures/create_simple_pptx.py` is unique and holds exactly the
three paragraphs of lines 44-56: their texts in order, each at 18pt,
with only the second at indent level 1. -/
theorem simple_second_slide_textbox_paragraphs :
    ∃ s2 tb, createSimplePptxDoc.slides.get? 1 = some s2 ∧
      s2.textBoxShapes = [tb] ∧
      tb.paragraphs =
        [{ text := "这是第一行文本", fontSizeEmu := some (Pt 18),
           fontBold := none, level := 0 },
         { text := "这是第二行文本", fontSizeEmu := some (Pt 18),
           fontBold := none, level := 1 },
         { text := "这是第三行文本", fontSizeEmu := some (Pt 18),
           fontBold := none, level := 0 }] :=
  ⟨_, _, rfl, rfl, rfl⟩

/-- C10: `scripts/create-test-pptx.py` rewraps stdout with a UTF-8
text wrapper (line 14) before anything is printed, so every stdout line
of any run carries the UTF-8 encoding, whatever the platform default
encoding, the arguments or the environment. -/
theorem test_script_stdout_always_utf8 (w : World) :
    ((runCreateTestPptx w).stdoutLines.all fun l => l.1 == "utf-8") = true := by
  rcases w with ⟨i, e, d, a, v⟩
  cases i <;> rcases e with _ | pe
  · rfl
  · cases pe <;> rfl
  · rfl
  · cases pe <;> rfl

/-- C10, witness at a concrete successful world (three lines printed,
all tagged UTF-8). -/
theorem test_script_stdout_always_utf8_witness :
    ((runCreateTestPptx okWorld).stdoutLines.all fun l => l.1 == "utf-8") = true :=
  test_script_stdout_always_utf8 okWorld

end PPTistBackend
